import Mathlib

/-!
Verification of the `@git-fabric/k8s` adapter/normalization layer.

The definitions below are a shallow embedding of the TypeScript source:
raw Kubernetes records become structures whose optional fields are
`Option`-typed, each adapter operation becomes a pure Lean function on
those records (the raw client call result is passed in as an argument;
a fallible call is an `Except`), and timestamps are integer milliseconds
since the epoch, with "now" passed explicitly where the source consults
the wall clock.
-/

namespace K8s

/-- Metadata common to raw records (`metadata?.name`, `metadata?.namespace`,
`metadata?.creationTimestamp`). The namespace field is called `ns` because
`namespace` is a Lean keyword. -/
structure ObjectMeta where
  name : Option String
  ns : Option String
  creationTimestamp : Option Int
deriving Repr, DecidableEq

/-- Raw `state.running` sub-object of a container status. -/
structure StateRunning where
  startedAt : Option Int
deriving Repr, DecidableEq

/-- Raw `state.waiting` sub-object of a container status. -/
structure StateWaiting where
  reason : Option String
  message : Option String
deriving Repr, DecidableEq

/-- Raw `state.terminated` sub-object of a container status. -/
structure StateTerminated where
  reason : Option String
deriving Repr, DecidableEq

/-- Raw `containerStatuses[i].state` object. -/
structure RawContainerState where
  running : Option StateRunning
  waiting : Option StateWaiting
  terminated : Option StateTerminated
deriving Repr, DecidableEq

/-- One raw container status record. -/
structure RawContainerStatus where
  name : String
  image : String
  ready : Bool
  restartCount : Option Nat
  state : Option RawContainerState
deriving Repr, DecidableEq

/-- One raw pod condition (`status.conditions[i]`). -/
structure RawPodCondition where
  type : String
  status : String
  reason : Option String
deriving Repr, DecidableEq

/-- Raw `pod.status` object. -/
structure RawPodStatus where
  phase : Option String
  containerStatuses : Option (List RawContainerStatus)
  conditions : Option (List RawPodCondition)
  message : Option String
  podIP : Option String
deriving Repr, DecidableEq

/-- Raw `pod.spec` object (only the field the adapter reads). -/
structure RawPodSpec where
  nodeName : Option String
deriving Repr, DecidableEq

/-- One raw pod record as returned by the cluster client. -/
structure RawPod where
  metadata : Option ObjectMeta
  spec : Option RawPodSpec
  status : Option RawPodStatus
deriving Repr, DecidableEq

/-- The phase of a raw pod record: `pod.status?.phase`. -/
def RawPod.phase (pod : RawPod) : Option String :=
  pod.status.bind (·.phase)

/-- The container statuses of a raw pod: `pod.status?.containerStatuses ?? []`. -/
def RawPod.containerStatuses (pod : RawPod) : List RawContainerStatus :=
  (pod.status.bind (·.containerStatuses)).getD []

/-! ### The `age` helper

Source:
```
function age(date) {
  if (!date) return 'unknown';
  const ms = Date.now() - new Date(date).getTime();
  const d = Math.floor(ms / 86400000);
  const h = Math.floor((ms % 86400000) / 3600000);
  const m = Math.floor((ms % 3600000) / 60000);
  if (d > 0) return `d-h`; if (h > 0) return `h-m`; return `m`;
}
```
`Math.floor` of an integer quotient is floor division (`Int.fdiv`) and the
JavaScript `%` operator is the truncating remainder (`Int.tmod`). -/
def age (date : Option Int) (now : Int) : String :=
  match date with
  | none => "unknown"
  | some t =>
    let ms : Int := now - t
    let d : Int := Int.fdiv ms 86400000
    let h : Int := Int.fdiv (Int.tmod ms 86400000) 3600000
    let m : Int := Int.fdiv (Int.tmod ms 3600000) 60000
    if d > 0 then toString d ++ "d" ++ toString h ++ "h"
    else if h > 0 then toString h ++ "h" ++ toString m ++ "m"
    else toString m ++ "m"

/-! ### Pod summaries and the problem classifier -/

/-- Normalized pod summary row (output of `listPods`). -/
structure PodSummary where
  ns : String
  name : String
  status : String
  ready : String
  restarts : Nat
  age : String
  node : Option String
deriving Repr, DecidableEq

/-- `listPods` per-item normalization. -/
def podSummary (now : Int) (pod : RawPod) : PodSummary :=
  let cs := (pod.status.bind (·.containerStatuses)).getD []
  let ready := (cs.filter (·.ready)).length
  let restarts := cs.foldl (fun sum c => sum + c.restartCount.getD 0) 0
  { ns := (pod.metadata.bind (·.ns)).getD ""
    name := (pod.metadata.bind (·.name)).getD ""
    status := (pod.status.bind (·.phase)).getD "Unknown"
    ready := toString ready ++ "/" ++ toString cs.length
    restarts := restarts
    age := age (pod.metadata.bind (·.creationTimestamp)) now
    node := pod.spec.bind (·.nodeName) }

/-- The filter predicate of `getPodProblems`, translated clause for clause. -/
def podIsProblem (pod : RawPod) : Bool :=
  let phase := pod.status.bind (·.phase)
  if phase = some "Running" ∨ phase = some "Succeeded" then
    let statuses := (pod.status.bind (·.containerStatuses)).getD []
    let highRestarts := statuses.any (fun c => decide (c.restartCount.getD 0 > 5))
    let notReady := statuses.any (fun c => !c.ready)
    highRestarts || (notReady && decide (phase = some "Running"))
  else
    decide (phase = some "Failed" ∨ phase = some "Pending" ∨ phase = some "Unknown")

/-- Normalized problem record (output rows of `getPodProblems`). -/
structure PodProblem where
  ns : String
  name : String
  status : String
  restarts : Nat
  reason : Option String
  message : Option String
deriving Repr, DecidableEq

/-- The map stage of `getPodProblems`. -/
def podProblem (pod : RawPod) : PodProblem :=
  let statuses := (pod.status.bind (·.containerStatuses)).getD []
  let restarts := statuses.foldl (fun sum c => sum + c.restartCount.getD 0) 0
  let waiting := statuses.find? (fun c => (c.state.bind (·.waiting)).isSome)
  { ns := (pod.metadata.bind (·.ns)).getD ""
    name := (pod.metadata.bind (·.name)).getD ""
    status := (pod.status.bind (·.phase)).getD "Unknown"
    restarts := restarts
    reason := ((waiting.bind (·.state)).bind (·.waiting) |>.bind (·.reason)).orElse
      (fun _ => ((pod.status.bind (·.conditions)).bind
        (List.find? (fun c => c.status == "False"))).bind (·.reason))
    message := ((waiting.bind (·.state)).bind (·.waiting) |>.bind (·.message)).orElse
      (fun _ => pod.status.bind (·.message)) }

/-- `getPodProblems` applied to the raw pod collection returned by the single
raw list call (namespaced or cluster-wide, see the dispatch layer below). -/
def getPodProblems (pods : List RawPod) : List PodProblem :=
  (pods.filter podIsProblem).map podProblem

/-! ### Stable comparator sort

`Array.prototype.sort` with a comparator is required by the language
standard to be a stable sort; the comparator used by the source,
`(a, b) => timeOf(b) - timeOf(a)`, places `a` no later than `b` exactly
when `timeOf b ≤ timeOf a`. We embed it as a stable insertion sort over
that boolean relation. -/

/-- Insert `x` into `l`, placing it before the first element `y` with
`le x y`; on ties the inserted (earlier) element stays first. -/
def insertBy (le : α → α → Bool) (x : α) : List α → List α
  | [] => [x]
  | y :: ys => if le x y then x :: y :: ys else y :: insertBy le x ys

/-- Stable sort by the boolean relation `le`. -/
def sortStable (le : α → α → Bool) : List α → List α
  | [] => []
  | x :: xs => insertBy le x (sortStable le xs)

/-! ### Events -/

/-- One raw event record (the fields the adapter reads). `involvedObject`
is accessed without an optional guard in the source, so it is required. -/
structure RawInvolvedObject where
  kind : String
  name : String
deriving Repr, DecidableEq

/-- One raw cluster event. `lastTimestamp` is in epoch milliseconds. -/
structure RawEvent where
  metadata : Option ObjectMeta
  type : Option String
  reason : Option String
  message : Option String
  count : Option Nat
  involvedObject : RawInvolvedObject
  lastTimestamp : Option Int
deriving Repr, DecidableEq

/-- Sort key of an event: `new Date(e.lastTimestamp ?? 0).getTime()`. -/
def eventTime (e : RawEvent) : Int :=
  e.lastTimestamp.getD 0

/-- The comparator `(a, b) => eventTime b - eventTime a` orders `a` before
`b` when it returns a non-positive number, i.e. when `eventTime b ≤ eventTime a`. -/
def eventDescLe (a b : RawEvent) : Bool :=
  decide (eventTime b ≤ eventTime a)

/-- Normalized event row (output of `listEvents`). -/
structure EventSummary where
  ns : String
  name : String
  type : String
  reason : String
  message : String
  count : Nat
  involvedObject : String
  lastSeen : String
deriving Repr, DecidableEq

/-- `listEvents` per-item normalization. -/
def eventSummary (now : Int) (e : RawEvent) : EventSummary :=
  { ns := (e.metadata.bind (·.ns)).getD ""
    name := (e.metadata.bind (·.name)).getD ""
    type := e.type.getD "Normal"
    reason := e.reason.getD ""
    message := e.message.getD ""
    count := e.count.getD 1
    involvedObject := e.involvedObject.kind ++ "/" ++ e.involvedObject.name
    lastSeen := age e.lastTimestamp now }

/-- The body of `listEvents` applied to the raw items of the single raw
call: sort newest-first, truncate to `limit` (default 50), normalize. -/
def listEventsCore (now : Int) (items : List RawEvent) (limit : Nat := 50) :
    List EventSummary :=
  ((sortStable eventDescLe items).take limit).map (eventSummary now)

/-! ### Pod detail (`getPod`) -/

/-- Normalized per-container status produced by `getPod`. -/
structure ContainerStatus where
  name : String
  image : String
  ready : Bool
  restarts : Nat
  state : String
  reason : Option String
deriving Repr, DecidableEq

/-- The `getPod` container-state classification: `running`, then `waiting`,
then `terminated`, first present wins; otherwise `unknown`. -/
def containerStatus (c : RawContainerStatus) : ContainerStatus :=
  if (c.state.bind (·.running)).isSome then
    ⟨c.name, c.image, c.ready, c.restartCount.getD 0, "running", none⟩
  else
    match c.state.bind (·.waiting) with
    | some w => ⟨c.name, c.image, c.ready, c.restartCount.getD 0, "waiting", w.reason⟩
    | none =>
      match c.state.bind (·.terminated) with
      | some t => ⟨c.name, c.image, c.ready, c.restartCount.getD 0, "terminated", t.reason⟩
      | none => ⟨c.name, c.image, c.ready, c.restartCount.getD 0, "unknown", none⟩

/-- Normalized pod-scoped event (the `events` field of `getPod`). -/
structure PodEvent where
  type : String
  reason : String
  message : String
  count : Nat
  lastSeen : String
deriving Repr, DecidableEq

/-- `getPod` per-event normalization (note the `''` fallback for `type`,
unlike the `'Normal'` fallback of `listEvents`). -/
def podEvent (now : Int) (e : RawEvent) : PodEvent :=
  { type := e.type.getD ""
    reason := e.reason.getD ""
    message := e.message.getD ""
    count := e.count.getD 1
    lastSeen := age e.lastTimestamp now }

/-- Normalized pod condition. -/
structure PodCondition where
  type : String
  status : String
  reason : Option String
deriving Repr, DecidableEq

/-- Normalized pod detail (output of `getPod`). -/
structure PodDetail where
  ns : String
  name : String
  status : String
  ready : String
  restarts : Nat
  age : String
  node : Option String
  ip : Option String
  containers : List ContainerStatus
  conditions : List PodCondition
  events : List PodEvent
deriving Repr, DecidableEq

/-- The body of `getPod` applied to the two raw reads it issues in
parallel: the pod itself and the events filtered to that pod. -/
def getPod (now : Int) (ns name : String) (pod : RawPod)
    (events : List RawEvent) : PodDetail :=
  let cs := (pod.status.bind (·.containerStatuses)).getD []
  let ready := (cs.filter (·.ready)).length
  let restarts := cs.foldl (fun sum c => sum + c.restartCount.getD 0) 0
  { ns := ns
    name := name
    status := (pod.status.bind (·.phase)).getD "Unknown"
    ready := toString ready ++ "/" ++ toString cs.length
    restarts := restarts
    age := age (pod.metadata.bind (·.creationTimestamp)) now
    node := pod.spec.bind (·.nodeName)
    ip := pod.status.bind (·.podIP)
    containers := cs.map containerStatus
    conditions := ((pod.status.bind (·.conditions)).getD []).map
      (fun c => ⟨c.type, c.status, c.reason⟩)
    events := ((sortStable eventDescLe events).take 10).map (podEvent now) }

/-! ### Deployments, services, PVCs, cron jobs, jobs -/

/-- Raw deployment record (fields the adapter reads). -/
structure RawDeploymentStatus where
  readyReplicas : Option Nat
  updatedReplicas : Option Nat
  availableReplicas : Option Nat
deriving Repr, DecidableEq

structure RawDeploymentSpec where
  replicas : Option Nat
deriving Repr, DecidableEq

structure RawDeployment where
  metadata : Option ObjectMeta
  spec : Option RawDeploymentSpec
  status : Option RawDeploymentStatus
deriving Repr, DecidableEq

/-- Normalized deployment summary row. -/
structure DeploymentSummary where
  ns : String
  name : String
  ready : String
  upToDate : Nat
  available : Nat
  age : String
deriving Repr, DecidableEq

/-- `listDeployments` per-item normalization. -/
def deploymentSummary (now : Int) (d : RawDeployment) : DeploymentSummary :=
  { ns := (d.metadata.bind (·.ns)).getD ""
    name := (d.metadata.bind (·.name)).getD ""
    ready := toString ((d.status.bind (·.readyReplicas)).getD 0) ++ "/" ++
      toString ((d.spec.bind (·.replicas)).getD 0)
    upToDate := (d.status.bind (·.updatedReplicas)).getD 0
    available := (d.status.bind (·.availableReplicas)).getD 0
    age := age (d.metadata.bind (·.creationTimestamp)) now }

/-- Raw service record (fields the adapter reads). -/
structure RawServicePort where
  port : Nat
  protocol : Option String
deriving Repr, DecidableEq

structure RawLoadBalancerIngress where
  ip : Option String
  hostname : Option String
deriving Repr, DecidableEq

structure RawLoadBalancer where
  ingress : Option (List RawLoadBalancerIngress)
deriving Repr, DecidableEq

structure RawServiceStatus where
  loadBalancer : Option RawLoadBalancer
deriving Repr, DecidableEq

structure RawServiceSpec where
  type : Option String
  clusterIP : Option String
  ports : Option (List RawServicePort)
deriving Repr, DecidableEq

structure RawService where
  metadata : Option ObjectMeta
  spec : Option RawServiceSpec
  status : Option RawServiceStatus
deriving Repr, DecidableEq

/-- Normalized service summary row. -/
structure ServiceSummary where
  ns : String
  name : String
  type : String
  clusterIP : String
  externalIP : Option String
  ports : String
  age : String
deriving Repr, DecidableEq

/-- `listServices` per-item normalization. The external-IP expression
`externalIPs || undefined` maps the empty joined string back to an absent
value, since `''` is falsy in JavaScript; a missing `ip ?? hostname`
element is rendered as `''` by `Array.prototype.join`. -/
def serviceSummary (now : Int) (svc : RawService) : ServiceSummary :=
  let ports := String.intercalate ","
    (((svc.spec.bind (·.ports)).getD []).map
      (fun p => toString p.port ++ "/" ++ p.protocol.getD "TCP"))
  let externalIPs : Option String :=
    ((svc.status.bind (·.loadBalancer)).bind (·.ingress)).map
      (fun l => String.intercalate ","
        (l.map (fun i => ((i.ip).orElse (fun _ => i.hostname)).getD "")))
  { ns := (svc.metadata.bind (·.ns)).getD ""
    name := (svc.metadata.bind (·.name)).getD ""
    type := (svc.spec.bind (·.type)).getD "ClusterIP"
    clusterIP := (svc.spec.bind (·.clusterIP)).getD ""
    externalIP := externalIPs.bind (fun s => if s = "" then none else some s)
    ports := ports
    age := age (svc.metadata.bind (·.creationTimestamp)) now }

/-- Raw persistent volume claim record. -/
structure RawPVCCapacity where
  storage : Option String
deriving Repr, DecidableEq

structure RawPVCStatus where
  phase : Option String
  capacity : Option RawPVCCapacity
deriving Repr, DecidableEq

structure RawPVCSpec where
  volumeName : Option String
  accessModes : Option (List String)
  storageClassName : Option String
deriving Repr, DecidableEq

structure RawPVC where
  metadata : Option ObjectMeta
  spec : Option RawPVCSpec
  status : Option RawPVCStatus
deriving Repr, DecidableEq

/-- Normalized PVC summary row. -/
structure PVCSummary where
  ns : String
  name : String
  status : String
  volume : String
  capacity : String
  accessModes : String
  storageClass : String
  age : String
deriving Repr, DecidableEq

/-- `listPVCs` per-item normalization. -/
def pvcSummary (now : Int) (pvc : RawPVC) : PVCSummary :=
  { ns := (pvc.metadata.bind (·.ns)).getD ""
    name := (pvc.metadata.bind (·.name)).getD ""
    status := (pvc.status.bind (·.phase)).getD "Unknown"
    volume := (pvc.spec.bind (·.volumeName)).getD ""
    capacity := ((pvc.status.bind (·.capacity)).bind (·.storage)).getD ""
    accessModes := String.intercalate "," ((pvc.spec.bind (·.accessModes)).getD [])
    storageClass := (pvc.spec.bind (·.storageClassName)).getD ""
    age := age (pvc.metadata.bind (·.creationTimestamp)) now }

/-- Raw cron job record. -/
structure RawCronJobSpec where
  schedule : Option String
  suspend : Option Bool
deriving Repr, DecidableEq

structure RawCronJobStatus where
  active : Option (List String)
  lastScheduleTime : Option Int
deriving Repr, DecidableEq

structure RawCronJob where
  metadata : Option ObjectMeta
  spec : Option RawCronJobSpec
  status : Option RawCronJobStatus
deriving Repr, DecidableEq

/-- Normalized cron job summary row. -/
structure CronJobSummary where
  ns : String
  name : String
  schedule : String
  suspend : Bool
  active : Nat
  lastSchedule : Option String
  age : String
deriving Repr, DecidableEq

/-- `listCronJobs` per-item normalization. -/
def cronJobSummary (now : Int) (cj : RawCronJob) : CronJobSummary :=
  { ns := (cj.metadata.bind (·.ns)).getD ""
    name := (cj.metadata.bind (·.name)).getD ""
    schedule := (cj.spec.bind (·.schedule)).getD ""
    suspend := (cj.spec.bind (·.suspend)).getD false
    active := ((cj.status.bind (·.active)).map List.length).getD 0
    lastSchedule := (cj.status.bind (·.lastScheduleTime)).map
      (fun t => age (some t) now)
    age := age (cj.metadata.bind (·.creationTimestamp)) now }

/-- Raw job record. -/
structure RawJobCondition where
  type : String
  status : String
deriving Repr, DecidableEq

structure RawJobStatus where
  succeeded : Option Nat
  conditions : Option (List RawJobCondition)
  startTime : Option Int
  completionTime : Option Int
deriving Repr, DecidableEq

structure RawJobSpec where
  completions : Option Nat
deriving Repr, DecidableEq

structure RawJob where
  metadata : Option ObjectMeta
  spec : Option RawJobSpec
  status : Option RawJobStatus
deriving Repr, DecidableEq

/-- Normalized job summary row. -/
structure JobSummary where
  ns : String
  name : String
  completions : String
  duration : Option String
  age : String
  status : String
deriving Repr, DecidableEq

/-- `listJobs` per-item normalization; `Math.round(ms / 1000)` is
`⌊(ms + 500) / 1000⌋`. -/
def jobSummary (now : Int) (job : RawJob) : JobSummary :=
  let succeeded := (job.status.bind (·.succeeded)).getD 0
  let completions := (job.spec.bind (·.completions)).getD 1
  let conds := (job.status.bind (·.conditions)).getD []
  let status :=
    if (conds.find? (fun c => c.type == "Complete" && c.status == "True")).isSome then "Complete"
    else if (conds.find? (fun c => c.type == "Failed" && c.status == "True")).isSome then "Failed"
    else "Running"
  let duration : Option String :=
    match job.status.bind (·.startTime), job.status.bind (·.completionTime) with
    | some s, some c => some (toString (Int.fdiv (c - s + 500) 1000) ++ "s")
    | _, _ => none
  { ns := (job.metadata.bind (·.ns)).getD ""
    name := (job.metadata.bind (·.name)).getD ""
    completions := toString succeeded ++ "/" ++ toString completions
    duration := duration
    age := age (job.metadata.bind (·.creationTimestamp)) now
    status := status }

/-! ### Namespace-scoped versus cluster-wide dispatch

Every collection operation of the adapter has the shape
`const { body } = namespace ? listNamespacedX(namespace) : listXForAllNamespaces()`.
We embed the raw client as a record of both endpoints per resource kind and
make each operation also return the list of raw calls it issued, so that
"exactly one call of the right scope" is a provable statement. -/

/-- A raw call descriptor: which resource kind, and either namespace-scoped
or cluster-wide. -/
inductive RawCall where
  | namespaced (kind ns : String)
  | clusterWide (kind : String)
deriving Repr, DecidableEq

/-- The raw cluster client: one namespaced and one cluster-wide list
endpoint per resource kind the adapter lists. -/
structure RawClient where
  listNamespacedPod : String → List RawPod
  listPodForAllNamespaces : List RawPod
  listNamespacedDeployment : String → List RawDeployment
  listDeploymentForAllNamespaces : List RawDeployment
  listNamespacedService : String → List RawService
  listServiceForAllNamespaces : List RawService
  listNamespacedEvent : String → List RawEvent
  listEventForAllNamespaces : List RawEvent
  listNamespacedPVC : String → List RawPVC
  listPVCForAllNamespaces : List RawPVC
  listNamespacedCronJob : String → List RawCronJob
  listCronJobForAllNamespaces : List RawCronJob
  listNamespacedJob : String → List RawJob
  listJobForAllNamespaces : List RawJob

/-- `listPods`: dispatch on the optional namespace, then normalize. -/
def listPods (c : RawClient) (now : Int) (ns? : Option String) :
    List PodSummary × List RawCall :=
  match ns? with
  | some ns => ((c.listNamespacedPod ns).map (podSummary now), [.namespaced "pods" ns])
  | none => (c.listPodForAllNamespaces.map (podSummary now), [.clusterWide "pods"])

/-- `listDeployments`. -/
def listDeployments (c : RawClient) (now : Int) (ns? : Option String) :
    List DeploymentSummary × List RawCall :=
  match ns? with
  | some ns => ((c.listNamespacedDeployment ns).map (deploymentSummary now),
      [.namespaced "deployments" ns])
  | none => (c.listDeploymentForAllNamespaces.map (deploymentSummary now),
      [.clusterWide "deployments"])

/-- `listServices`. -/
def listServices (c : RawClient) (now : Int) (ns? : Option String) :
    List ServiceSummary × List RawCall :=
  match ns? with
  | some ns => ((c.listNamespacedService ns).map (serviceSummary now),
      [.namespaced "services" ns])
  | none => (c.listServiceForAllNamespaces.map (serviceSummary now),
      [.clusterWide "services"])

/-- `listEvents`: dispatch, then sort/truncate/normalize. -/
def listEvents (c : RawClient) (now : Int) (ns? : Option String)
    (limit : Nat := 50) : List EventSummary × List RawCall :=
  match ns? with
  | some ns => (listEventsCore now (c.listNamespacedEvent ns) limit,
      [.namespaced "events" ns])
  | none => (listEventsCore now c.listEventForAllNamespaces limit,
      [.clusterWide "events"])

/-- `listPVCs`. -/
def listPVCs (c : RawClient) (now : Int) (ns? : Option String) :
    List PVCSummary × List RawCall :=
  match ns? with
  | some ns => ((c.listNamespacedPVC ns).map (pvcSummary now),
      [.namespaced "persistentvolumeclaims" ns])
  | none => (c.listPVCForAllNamespaces.map (pvcSummary now),
      [.clusterWide "persistentvolumeclaims"])

/-- `listCronJobs`. -/
def listCronJobs (c : RawClient) (now : Int) (ns? : Option String) :
    List CronJobSummary × List RawCall :=
  match ns? with
  | some ns => ((c.listNamespacedCronJob ns).map (cronJobSummary now),
      [.namespaced "cronjobs" ns])
  | none => (c.listCronJobForAllNamespaces.map (cronJobSummary now),
      [.clusterWide "cronjobs"])

/-- `listJobs`. -/
def listJobs (c : RawClient) (now : Int) (ns? : Option String) :
    List JobSummary × List RawCall :=
  match ns? with
  | some ns => ((c.listNamespacedJob ns).map (jobSummary now),
      [.namespaced "jobs" ns])
  | none => (c.listJobForAllNamespaces.map (jobSummary now),
      [.clusterWide "jobs"])

/-! ### Optional-CRD listing -/

/-- The body of a custom-objects list response: `res.body.items` may be
absent (`?? []` in the source). -/
structure CustomList (α : Type) where
  items : Option (List α)
deriving Repr, DecidableEq

/-- The shared helper: the raw custom-objects call either returns a
response or fails; any failure is swallowed into an empty list.

```
try { const res = ...; return res.body.items ?? []; } catch { return []; }
``` -/
def listCustomObjects {α : Type} (res : Except String (CustomList α)) : List α :=
  match res with
  | .ok r => r.items.getD []
  | .error _ => []

/-- Raw Traefik IngressRoute record. -/
structure RawRouteService where
  name : String
  port : Nat
deriving Repr, DecidableEq

structure RawRoute where
  matchRule : Option String
  services : Option (List RawRouteService)
deriving Repr, DecidableEq

structure RawIngressRouteSpec where
  entryPoints : Option (List String)
  routes : Option (List RawRoute)
deriving Repr, DecidableEq

structure RawIngressRoute where
  metadata : Option ObjectMeta
  spec : Option RawIngressRouteSpec
deriving Repr, DecidableEq

/-- Normalized IngressRoute rule. -/
structure IngressRule where
  matchRule : String
  services : List String
deriving Repr, DecidableEq

/-- Normalized IngressRoute summary row. -/
structure IngressRouteSummary where
  ns : String
  name : String
  entryPoints : List String
  rules : List IngressRule
  age : String
deriving Repr, DecidableEq

/-- `listIngressRoutes`: CRD list (possibly failed) plus normalization. -/
def listIngressRoutes (now : Int)
    (res : Except String (CustomList RawIngressRoute)) :
    List IngressRouteSummary :=
  (listCustomObjects res).map (fun ir =>
    { ns := (ir.metadata.bind (·.ns)).getD ""
      name := (ir.metadata.bind (·.name)).getD ""
      entryPoints := (ir.spec.bind (·.entryPoints)).getD []
      rules := ((ir.spec.bind (·.routes)).getD []).map (fun r =>
        { matchRule := r.matchRule.getD ""
          services := (r.services.getD []).map
            (fun s => s.name ++ ":" ++ toString s.port) })
      age := age (ir.metadata.bind (·.creationTimestamp)) now })

/-- Raw ArgoCD Application record (fields `listArgoCDApps` reads). -/
structure RawArgoSource where
  repoURL : Option String
  path : Option String
  targetRevision : Option String
deriving Repr, DecidableEq

structure RawArgoDestination where
  ns : Option String
deriving Repr, DecidableEq

structure RawArgoSpec where
  project : Option String
  source : Option RawArgoSource
  destination : Option RawArgoDestination
deriving Repr, DecidableEq

structure RawArgoStatusItem where
  status : Option String
deriving Repr, DecidableEq

structure RawArgoStatus where
  sync : Option RawArgoStatusItem
  health : Option RawArgoStatusItem
deriving Repr, DecidableEq

structure RawArgoApp where
  metadata : Option ObjectMeta
  spec : Option RawArgoSpec
  status : Option RawArgoStatus
deriving Repr, DecidableEq

/-- Normalized ArgoCD application summary row. -/
structure ArgoCDAppSummary where
  name : String
  project : String
  syncStatus : String
  healthStatus : String
  repo : String
  path : String
  targetRevision : String
  ns : String
deriving Repr, DecidableEq

/-- `listArgoCDApps`: CRD list (possibly failed) plus normalization. -/
def listArgoCDApps (res : Except String (CustomList RawArgoApp)) :
    List ArgoCDAppSummary :=
  (listCustomObjects res).map (fun app =>
    { name := (app.metadata.bind (·.name)).getD ""
      project := (app.spec.bind (·.project)).getD "default"
      syncStatus := ((app.status.bind (·.sync)).bind (·.status)).getD "Unknown"
      healthStatus := ((app.status.bind (·.health)).bind (·.status)).getD "Unknown"
      repo := ((app.spec.bind (·.source)).bind (·.repoURL)).getD ""
      path := ((app.spec.bind (·.source)).bind (·.path)).getD ""
      targetRevision := ((app.spec.bind (·.source)).bind (·.targetRevision)).getD "HEAD"
      ns := ((app.spec.bind (·.destination)).bind (·.ns)).getD "" })

/-- Raw KEDA ScaledObject record. -/
structure RawScaleTargetRef where
  kind : Option String
  name : Option String
deriving Repr, DecidableEq

structure RawTrigger where
  type : String
deriving Repr, DecidableEq

structure RawScaledObjectSpec where
  scaleTargetRef : Option RawScaleTargetRef
  minReplicaCount : Option Nat
  maxReplicaCount : Option Nat
  triggers : Option (List RawTrigger)
deriving Repr, DecidableEq

structure RawSOCondition where
  type : String
  status : String
deriving Repr, DecidableEq

structure RawScaledObjectStatus where
  conditions : Option (List RawSOCondition)
deriving Repr, DecidableEq

structure RawScaledObject where
  metadata : Option ObjectMeta
  spec : Option RawScaledObjectSpec
  status : Option RawScaledObjectStatus
deriving Repr, DecidableEq

/-- Normalized ScaledObject summary row. -/
structure ScaledObjectSummary where
  ns : String
  name : String
  scaleTargetKind : String
  scaleTargetName : String
  minReplicas : Nat
  maxReplicas : Nat
  triggers : String
  ready : String
  active : String
  age : String
deriving Repr, DecidableEq

/-- `listScaledObjects`: CRD list (possibly failed) plus normalization. -/
def listScaledObjects (now : Int)
    (res : Except String (CustomList RawScaledObject)) :
    List ScaledObjectSummary :=
  (listCustomObjects res).map (fun so =>
    { ns := (so.metadata.bind (·.ns)).getD ""
      name := (so.metadata.bind (·.name)).getD ""
      scaleTargetKind := ((so.spec.bind (·.scaleTargetRef)).bind (·.kind)).getD "Deployment"
      scaleTargetName := ((so.spec.bind (·.scaleTargetRef)).bind (·.name)).getD ""
      minReplicas := (so.spec.bind (·.minReplicaCount)).getD 0
      maxReplicas := (so.spec.bind (·.maxReplicaCount)).getD 100
      triggers := String.intercalate ","
        (((so.spec.bind (·.triggers)).getD []).map (·.type))
      ready := (((so.status.bind (·.conditions)).bind
        (List.find? (fun c => c.type == "Ready"))).map (·.status)).getD "Unknown"
      active := (((so.status.bind (·.conditions)).bind
        (List.find? (fun c => c.type == "Active"))).map (·.status)).getD "Unknown"
      age := age (so.metadata.bind (·.creationTimestamp)) now })

/-- Raw Longhorn Volume record. -/
structure RawKubernetesStatus where
  ns : Option String
  pvcName : Option String
deriving Repr, DecidableEq

structure RawLonghornSpec where
  accessMode : Option String
  size : Option String
  numberOfReplicas : Option Nat
deriving Repr, DecidableEq

structure RawLonghornStatus where
  state : Option String
  robustness : Option String
  kubernetesStatus : Option RawKubernetesStatus
deriving Repr, DecidableEq

structure RawLonghornVolume where
  metadata : Option ObjectMeta
  spec : Option RawLonghornSpec
  status : Option RawLonghornStatus
deriving Repr, DecidableEq

/-- Normalized Longhorn volume summary row. -/
structure LonghornVolumeSummary where
  name : String
  state : String
  robustness : String
  accessMode : String
  size : String
  replicas : Nat
  ns : Option String
  pvc : Option String
deriving Repr, DecidableEq

/-- `listLonghornVolumes`: CRD list (possibly failed) plus normalization. -/
def listLonghornVolumes (res : Except String (CustomList RawLonghornVolume)) :
    List LonghornVolumeSummary :=
  (listCustomObjects res).map (fun v =>
    { name := (v.metadata.bind (·.name)).getD ""
      state := (v.status.bind (·.state)).getD "unknown"
      robustness := (v.status.bind (·.robustness)).getD "unknown"
      accessMode := (v.spec.bind (·.accessMode)).getD ""
      size := (v.spec.bind (·.size)).getD ""
      replicas := (v.spec.bind (·.numberOfReplicas)).getD 0
      ns := (v.status.bind (·.kubernetesStatus)).bind (·.ns)
      pvc := (v.status.bind (·.kubernetesStatus)).bind (·.pvcName) })

/-! ### Health probe -/

/-- Cluster info summary (result of `getClusterInfo`). -/
structure ClusterInfo where
  serverVersion : String
  platform : String
  nodeCount : Nat
  namespaceCount : Nat
  podCount : Nat
deriving Repr, DecidableEq

/-- Health probe result envelope. -/
structure HealthResult where
  app : String
  status : String
  latencyMs : Int
  details : Option String
deriving Repr, DecidableEq

/-- The `health` operation: it awaits `getClusterInfo` (whose outcome, a
value or a raised error, is the `res` argument) between the two clock
reads `start` and `finish`.

```
const start = Date.now();
try { await k8s.getClusterInfo();
      return { app, status: 'healthy', latencyMs: Date.now() - start }; }
catch (e) { return { app, status: 'unavailable', latencyMs: Date.now() - start,
                     details: { error: String(e) } }; }
``` -/
def health (res : Except String ClusterInfo) (start finish : Int) : HealthResult :=
  match res with
  | .ok _ => ⟨"@git-fabric/k8s", "healthy", finish - start, none⟩
  | .error e => ⟨"@git-fabric/k8s", "unavailable", finish - start, some e⟩

/-! ### Tool dispatch -/

/-- A catalog entry: a named tool whose execution either returns the
serialized result text or raises (modelled as `Except.error`). -/
structure FabricTool where
  name : String
  description : String
  execute : List (String × String) → Except String String

/-- The uniform result envelope of the dispatcher: a single text content
block plus the error flag (absent, hence false, on success). -/
structure CallToolResult where
  text : String
  isError : Bool
deriving Repr, DecidableEq

/-- The `CallToolRequestSchema` handler of `buildServer`:

```
const tool = app.tools.find((t) => t.name === req.params.name);
if (!tool) return { content: [...text: `Unknown tool: ...`], isError: true };
try { const result = await tool.execute(req.params.arguments ?? {});
      return { content: [...text: JSON.stringify(result)...] }; }
catch (e) { return { content: [...text: String(e)], isError: true }; }
``` -/
def callTool (tools : List FabricTool) (name : String)
    (args : List (String × String)) : CallToolResult :=
  match tools.find? (fun t => t.name == name) with
  | none => ⟨"Unknown tool: " ++ name, true⟩
  | some t =>
    match t.execute args with
    | .ok v => ⟨v, false⟩
    | .error e => ⟨e, true⟩

/-! ### Spec-side statements and concrete examples -/

/-- The problem-classification policy exactly as the specification words
it, to be compared against the implementation predicate `podIsProblem`:
(phase is Failed, Pending, or Unknown) OR (phase is Running/Succeeded AND
(any container has restart count > 5 OR (any container is not-ready AND
phase is Running))). -/
def podProblemClaim (pod : RawPod) : Prop :=
  (pod.phase = some "Failed" ∨ pod.phase = some "Pending" ∨ pod.phase = some "Unknown")
  ∨ ((pod.phase = some "Running" ∨ pod.phase = some "Succeeded")
    ∧ ((∃ c ∈ pod.containerStatuses, c.restartCount.getD 0 > 5)
      ∨ ((∃ c ∈ pod.containerStatuses, ¬ c.ready) ∧ pod.phase = some "Running")))

/-- A pod with phase `Running` and one container with six restarts. -/
def runningHighRestartPod : RawPod :=
  ⟨none, none, some ⟨some "Running", some [⟨"app", "img", true, some 6, none⟩],
    none, none, none⟩⟩

/-- Concrete events with last-seen instants t1 > t3 > t2 (t1 = 300000 ms,
t2 = 100000 ms, t3 = 200000 ms), listed in the order [t1, t2, t3]. -/
def eventT1 : RawEvent := ⟨none, none, none, none, none, ⟨"Pod", "p1"⟩, some 300000⟩

def eventT2 : RawEvent := ⟨none, none, none, none, none, ⟨"Pod", "p2"⟩, some 100000⟩

def eventT3 : RawEvent := ⟨none, none, none, none, none, ⟨"Pod", "p3"⟩, some 200000⟩

/-- A container status whose raw state carries both a `running` and a
`waiting` sub-object. -/
def bothRunningWaiting : RawContainerStatus :=
  ⟨"app", "img", true, some 2,
    some ⟨some ⟨none⟩, some ⟨some "CrashLoopBackOff", none⟩, none⟩⟩

/-- A raw pod record with every optional field absent. -/
def emptyPod : RawPod := ⟨none, none, none⟩

/-- A raw service record with every optional field absent. -/
def emptyService : RawService := ⟨none, none, none⟩

/-! ## Helper lemmas -/

theorem mem_insertBy (le : α → α → Bool) (x a : α) (l : List α) :
    a ∈ insertBy le x l ↔ a = x ∨ a ∈ l := by
  induction l with
  | nil => simp [insertBy]
  | cons y ys ih =>
    by_cases hxy : le x y = true
    · simp only [insertBy, if_pos hxy, List.mem_cons]
    · simp only [insertBy, if_neg hxy, List.mem_cons, ih]
      tauto

theorem pairwise_insertBy (le : α → α → Bool)
    (htot : ∀ a b, le a b = false → le b a = true)
    (htrans : ∀ a b c, le a b = true → le b c = true → le a c = true)
    (x : α) (l : List α) (h : l.Pairwise (fun a b => le a b = true)) :
    (insertBy le x l).Pairwise (fun a b => le a b = true) := by
  induction l with
  | nil => simp [insertBy]
  | cons y ys ih =>
    rw [List.pairwise_cons] at h
    obtain ⟨hy, hys⟩ := h
    by_cases hxy : le x y = true
    · rw [insertBy, if_pos hxy]
      refine List.Pairwise.cons ?_ (List.Pairwise.cons hy hys)
      intro z hz
      rcases List.mem_cons.mp hz with rfl | hz
      · exact hxy
      · exact htrans x y z hxy (hy z hz)
    · rw [insertBy, if_neg hxy]
      refine List.Pairwise.cons ?_ (ih hys)
      intro z hz
      rcases (mem_insertBy le x z ys).mp hz with hzx | hz
      · rw [hzx]
        exact htot x y (by simpa using hxy)
      · exact hy z hz

theorem pairwise_sortStable (le : α → α → Bool)
    (htot : ∀ a b, le a b = false → le b a = true)
    (htrans : ∀ a b c, le a b = true → le b c = true → le a c = true)
    (l : List α) :
    (sortStable le l).Pairwise (fun a b => le a b = true) := by
  induction l with
  | nil => exact List.Pairwise.nil
  | cons x xs ih => exact pairwise_insertBy le htot htrans x _ ih

theorem eventDescLe_total (a b : RawEvent) (h : eventDescLe a b = false) :
    eventDescLe b a = true := by
  simp only [eventDescLe, decide_eq_false_iff_not, decide_eq_true_eq, not_le] at *
  omega

theorem eventDescLe_trans (a b c : RawEvent) (h1 : eventDescLe a b = true)
    (h2 : eventDescLe b c = true) : eventDescLe a c = true := by
  simp only [eventDescLe, decide_eq_true_eq] at *
  omega

/-- The stable sort used on events is sorted newest-first. -/
theorem sortStable_events_sorted (l : List RawEvent) :
    (sortStable eventDescLe l).Pairwise (fun a b => eventTime b ≤ eventTime a) := by
  have h := pairwise_sortStable eventDescLe eventDescLe_total eventDescLe_trans l
  exact h.imp (fun hab => by simpa [eventDescLe] using hab)

theorem fdiv_day (e : Nat) :
    Int.fdiv (e : Int) 86400000 = ((e / 86400000 : Nat) : Int) := by
  cases e with
  | zero => rfl
  | succ m => rfl

theorem fdiv_hour (e : Nat) :
    Int.fdiv (e : Int) 3600000 = ((e / 3600000 : Nat) : Int) := by
  cases e with
  | zero => rfl
  | succ m => rfl

theorem fdiv_min (e : Nat) :
    Int.fdiv (e : Int) 60000 = ((e / 60000 : Nat) : Int) := by
  cases e with
  | zero => rfl
  | succ m => rfl

theorem tmod_day (e : Nat) :
    Int.tmod (e : Int) 86400000 = ((e % 86400000 : Nat) : Int) := rfl

theorem tmod_hour (e : Nat) :
    Int.tmod (e : Int) 3600000 = ((e % 3600000 : Nat) : Int) := rfl

theorem toString_natCast (n : Nat) : toString ((n : Nat) : Int) = toString n := rfl

/-! ## Claim theorems -/

/-- Claim C2: each of the four optional-CRD list operations returns the
empty collection whenever the underlying custom-objects call fails, for
any error whatsoever, instead of propagating the failure (the operations
are total functions of the call outcome; the error branch yields `[]`). -/
theorem crd_failure_yields_empty (e : String) (now : Int) :
    listIngressRoutes now (Except.error e) = []
    ∧ listArgoCDApps (Except.error e) = []
    ∧ listScaledObjects now (Except.error e) = []
    ∧ listLonghornVolumes (Except.error e) = [] :=
  ⟨rfl, rfl, rfl, rfl⟩

/-- Claim C4: every namespace-accepting collection operation issues exactly
one namespace-scoped raw call when the namespace is present and exactly one
cluster-wide raw call when it is absent, and its output is the
normalization of that single call's full result (no client-side
post-filtering: every raw item yields exactly one output row, and for
events only the documented sort/truncate is applied). -/
theorem namespace_dispatch (c : RawClient) (now : Int) (ns : String) (limit : Nat) :
    ((listPods c now (some ns)).2 = [RawCall.namespaced "pods" ns]
      ∧ (listPods c now (some ns)).1 = (c.listNamespacedPod ns).map (podSummary now)
      ∧ (listPods c now none).2 = [RawCall.clusterWide "pods"]
      ∧ (listPods c now none).1 = c.listPodForAllNamespaces.map (podSummary now)
      ∧ (listPods c now none).1.length = c.listPodForAllNamespaces.length)
    ∧ ((listDeployments c now (some ns)).2 = [RawCall.namespaced "deployments" ns]
      ∧ (listDeployments c now (some ns)).1 = (c.listNamespacedDeployment ns).map (deploymentSummary now)
      ∧ (listDeployments c now none).2 = [RawCall.clusterWide "deployments"]
      ∧ (listDeployments c now none).1 = c.listDeploymentForAllNamespaces.map (deploymentSummary now)
      ∧ (listDeployments c now none).1.length = c.listDeploymentForAllNamespaces.length)
    ∧ ((listServices c now (some ns)).2 = [RawCall.namespaced "services" ns]
      ∧ (listServices c now (some ns)).1 = (c.listNamespacedService ns).map (serviceSummary now)
      ∧ (listServices c now none).2 = [RawCall.clusterWide "services"]
      ∧ (listServices c now none).1 = c.listServiceForAllNamespaces.map (serviceSummary now)
      ∧ (listServices c now none).1.length = c.listServiceForAllNamespaces.length)
    ∧ ((listEvents c now (some ns) limit).2 = [RawCall.namespaced "events" ns]
      ∧ (listEvents c now (some ns) limit).1 = listEventsCore now (c.listNamespacedEvent ns) limit
      ∧ (listEvents c now none limit).2 = [RawCall.clusterWide "events"]
      ∧ (listEvents c now none limit).1 = listEventsCore now c.listEventForAllNamespaces limit)
    ∧ ((listPVCs c now (some ns)).2 = [RawCall.namespaced "persistentvolumeclaims" ns]
      ∧ (listPVCs c now (some ns)).1 = (c.listNamespacedPVC ns).map (pvcSummary now)
      ∧ (listPVCs c now none).2 = [RawCall.clusterWide "persistentvolumeclaims"]
      ∧ (listPVCs c now none).1 = c.listPVCForAllNamespaces.map (pvcSummary now)
      ∧ (listPVCs c now none).1.length = c.listPVCForAllNamespaces.length)
    ∧ ((listCronJobs c now (some ns)).2 = [RawCall.namespaced "cronjobs" ns]
      ∧ (listCronJobs c now (some ns)).1 = (c.listNamespacedCronJob ns).map (cronJobSummary now)
      ∧ (listCronJobs c now none).2 = [RawCall.clusterWide "cronjobs"]
      ∧ (listCronJobs c now none).1 = c.listCronJobForAllNamespaces.map (cronJobSummary now)
      ∧ (listCronJobs c now none).1.length = c.listCronJobForAllNamespaces.length)
    ∧ ((listJobs c now (some ns)).2 = [RawCall.namespaced "jobs" ns]
      ∧ (listJobs c now (some ns)).1 = (c.listNamespacedJob ns).map (jobSummary now)
      ∧ (listJobs c now none).2 = [RawCall.clusterWide "jobs"]
      ∧ (listJobs c now none).1 = c.listJobForAllNamespaces.map (jobSummary now)
      ∧ (listJobs c now none).1.length = c.listJobForAllNamespaces.length) := by
  refine ⟨⟨rfl, rfl, rfl, rfl, ?_⟩, ⟨rfl, rfl, rfl, rfl, ?_⟩, ⟨rfl, rfl, rfl, rfl, ?_⟩,
    ⟨rfl, rfl, rfl, rfl⟩, ⟨rfl, rfl, rfl, rfl, ?_⟩, ⟨rfl, rfl, rfl, rfl, ?_⟩,
    ⟨rfl, rfl, rfl, rfl, ?_⟩⟩ <;> simp [listPods, listDeployments, listServices,
      listPVCs, listCronJobs, listJobs]

/-- Claim C7: the dispatcher returns an error-flagged "unknown tool" result
when the requested name matches no catalog entry, and converts any
exception raised by a matched tool's execution into an error-flagged
textual result; in both cases it returns normally (being a total function
into `CallToolResult`, no exception crosses the dispatch boundary). -/
theorem callTool_error_envelope (tools : List FabricTool) (name : String)
    (args : List (String × String)) :
    (tools.find? (fun t => t.name == name) = none →
      callTool tools name args = ⟨"Unknown tool: " ++ name, true⟩)
    ∧ (∀ t e, tools.find? (fun t => t.name == name) = some t →
      t.execute args = Except.error e →
      callTool tools name args = ⟨e, true⟩)
    ∧ (∀ t v, tools.find? (fun t => t.name == name) = some t →
      t.execute args = Except.ok v →
      callTool tools name args = ⟨v, false⟩) := by
  refine ⟨fun h => ?_, fun t e hf he => ?_, fun t v hf hv => ?_⟩ <;>
    simp [callTool, *]

/-- Claim C7 witness: concrete dispatches through the two error paths. -/
theorem callTool_error_envelope_witness :
    callTool [] "nope" [] = ⟨"Unknown tool: " ++ "nope", true⟩
    ∧ callTool [⟨"boom", "always fails", fun _ => Except.error "E"⟩] "boom" []
      = ⟨"E", true⟩ :=
  ⟨(callTool_error_envelope [] "nope" []).1 rfl,
   (callTool_error_envelope [⟨"boom", "always fails", fun _ => Except.error "E"⟩]
      "boom" []).2.1 _ "E" rfl rfl⟩

/-- Claim C8: the health operation reports `healthy` with a non-negative
latency when the cluster-info read succeeds, and `unavailable` with the
error text in `details` when it raises; being a total function of the
read's outcome, it never propagates the exception. -/
theorem health_envelope (info : ClusterInfo) (e : String) (start finish : Int) :
    ((health (Except.ok info) start finish).status = "healthy"
      ∧ (health (Except.ok info) start finish).details = none
      ∧ (start ≤ finish → 0 ≤ (health (Except.ok info) start finish).latencyMs))
    ∧ ((health (Except.error e) start finish).status = "unavailable"
      ∧ (health (Except.error e) start finish).details = some e
      ∧ (start ≤ finish → 0 ≤ (health (Except.error e) start finish).latencyMs)) := by
  refine ⟨⟨rfl, rfl, fun h => ?_⟩, ⟨rfl, rfl, fun h => ?_⟩⟩ <;>
    · simp only [health]
      omega

/-- Claim C8 witness: the health envelope at a concrete succeeding and a
concrete failing read, with clock readings 100 and 103. -/
theorem health_envelope_witness :
    (health (Except.ok ⟨"1.30", "linux/amd64", 3, 5, 40⟩) 100 103).status = "healthy"
    ∧ 0 ≤ (health (Except.ok ⟨"1.30", "linux/amd64", 3, 5, 40⟩) 100 103).latencyMs
    ∧ (health (Except.error "connect ECONNREFUSED") 100 103).status = "unavailable"
    ∧ (health (Except.error "connect ECONNREFUSED") 100 103).details
      = some "connect ECONNREFUSED" :=
  ⟨(health_envelope ⟨"1.30", "linux/amd64", 3, 5, 40⟩ "connect ECONNREFUSED" 100 103).1.1,
   (health_envelope ⟨"1.30", "linux/amd64", 3, 5, 40⟩ "connect ECONNREFUSED" 100 103).1.2.2
     (by decide),
   (health_envelope ⟨"1.30", "linux/amd64", 3, 5, 40⟩ "connect ECONNREFUSED" 100 103).2.1,
   (health_envelope ⟨"1.30", "linux/amd64", 3, 5, 40⟩ "connect ECONNREFUSED" 100 103).2.2.1⟩

/-- Claim C1: a pod record passes the `getPodProblems` filter exactly when
(its phase is Failed, Pending, or Unknown) OR (its phase is Running or
Succeeded AND (some container status has restartCount > 5 OR (some
container status is not ready AND the phase is Running))); the operation's
result is precisely the normalized image of the pods so classified. -/
theorem getPodProblems_classification :
    (∀ pod : RawPod, podIsProblem pod = true ↔ podProblemClaim pod)
    ∧ ∀ pods : List RawPod,
        getPodProblems pods = (pods.filter podIsProblem).map podProblem := by
  refine ⟨fun pod => ?_, fun pods => rfl⟩
  unfold podIsProblem podProblemClaim RawPod.phase RawPod.containerStatuses
  by_cases hp : pod.status.bind (fun s => s.phase) = some "Running"
    ∨ pod.status.bind (fun s => s.phase) = some "Succeeded"
  · rw [if_pos hp]
    have h1 : ¬(pod.status.bind (fun s => s.phase) = some "Failed"
        ∨ pod.status.bind (fun s => s.phase) = some "Pending"
        ∨ pod.status.bind (fun s => s.phase) = some "Unknown") := by
      rcases hp with h | h <;> rw [h] <;> simp
    simp only [Bool.or_eq_true, Bool.and_eq_true, List.any_eq_true,
      decide_eq_true_eq, Bool.not_eq_true, Bool.not_eq_true']
    constructor
    · intro h
      exact Or.inr ⟨hp, by tauto⟩
    · intro h
      rcases h with h | ⟨_, h⟩
      · exact absurd h h1
      · tauto
  · rw [if_neg hp]
    simp only [decide_eq_true_eq]
    constructor
    · intro h
      exact Or.inl h
    · intro h
      rcases h with h | ⟨h, _⟩
      · exact h
      · exact absurd h hp

/-- Claim C1 witness: a Running pod whose single container has six
restarts is classified as a problem. -/
theorem getPodProblems_classification_witness :
    podIsProblem runningHighRestartPod = true :=
  (getPodProblems_classification.1 runningHighRestartPod).mpr (by
    unfold podProblemClaim runningHighRestartPod RawPod.phase RawPod.containerStatuses
    decide)

/-- Claim C6: the container state derived by `getPod` inspects `running`,
`waiting`, `terminated` in that priority order, the first present
sub-object winning (in particular a container with both `running` and
`waiting` present yields `running`); `waiting` and `terminated` carry
their sub-object's reason; when none is present the state is `unknown`. -/
theorem containerStatus_priority (c : RawContainerStatus) :
    ((c.state.bind (·.running)).isSome →
      (containerStatus c).state = "running" ∧ (containerStatus c).reason = none)
    ∧ (∀ w, c.state.bind (·.running) = none → c.state.bind (·.waiting) = some w →
      (containerStatus c).state = "waiting" ∧ (containerStatus c).reason = w.reason)
    ∧ (∀ t, c.state.bind (·.running) = none → c.state.bind (·.waiting) = none →
      c.state.bind (·.terminated) = some t →
      (containerStatus c).state = "terminated" ∧ (containerStatus c).reason = t.reason)
    ∧ (c.state.bind (·.running) = none → c.state.bind (·.waiting) = none →
      c.state.bind (·.terminated) = none →
      (containerStatus c).state = "unknown" ∧ (containerStatus c).reason = none) := by
  refine ⟨fun h => ?_, fun w h0 hw => ?_, fun t h0 hw ht => ?_, fun h0 hw ht => ?_⟩ <;>
    simp [containerStatus, *]

/-- Claim C6 witness: a container carrying both `running` and `waiting`
sub-objects is deterministically classified as `running`. -/
theorem containerStatus_priority_witness :
    (containerStatus bothRunningWaiting).state = "running"
    ∧ (containerStatus bothRunningWaiting).reason = none :=
  (containerStatus_priority bothRunningWaiting).1 rfl

/-- Claim C9: every text-rendered field of the normalized records carries
its documented fallback when the corresponding raw nested field is absent
(shown for the cited operations `listPods` and `listServices`; the output
record types make the fields non-optional, so no `undefined`/`null` can be
produced). -/
theorem normalization_defaults (now : Int) (pod : RawPod) (svc : RawService) :
    (pod.metadata = none →
      (podSummary now pod).name = "" ∧ (podSummary now pod).ns = ""
      ∧ (podSummary now pod).age = "unknown")
    ∧ (pod.status = none →
      (podSummary now pod).status = "Unknown" ∧ (podSummary now pod).ready = "0/0"
      ∧ (podSummary now pod).restarts = 0)
    ∧ (svc.metadata = none →
      (serviceSummary now svc).name = "" ∧ (serviceSummary now svc).ns = ""
      ∧ (serviceSummary now svc).age = "unknown")
    ∧ (svc.spec = none →
      (serviceSummary now svc).type = "ClusterIP"
      ∧ (serviceSummary now svc).clusterIP = ""
      ∧ (serviceSummary now svc).ports = "") := by
  refine ⟨fun h => ⟨?_, ?_, ?_⟩, fun h => ⟨?_, ?_, ?_⟩,
    fun h => ⟨?_, ?_, ?_⟩, fun h => ⟨?_, ?_, ?_⟩⟩ <;>
    simp [podSummary, serviceSummary, age, h] <;> rfl

/-- Claim C9 witness: the fallbacks at the fully-absent pod and service. -/
theorem normalization_defaults_witness :
    (podSummary 0 emptyPod).status = "Unknown"
    ∧ (podSummary 0 emptyPod).ready = "0/0"
    ∧ (podSummary 0 emptyPod).age = "unknown"
    ∧ (serviceSummary 0 emptyService).type = "ClusterIP"
    ∧ (serviceSummary 0 emptyService).ports = "" :=
  ⟨(normalization_defaults 0 emptyPod emptyService).2.1 rfl |>.1,
   (normalization_defaults 0 emptyPod emptyService).2.1 rfl |>.2.1,
   (normalization_defaults 0 emptyPod emptyService).1 rfl |>.2.2,
   (normalization_defaults 0 emptyPod emptyService).2.2.2 rfl |>.1,
   (normalization_defaults 0 emptyPod emptyService).2.2.2 rfl |>.2.2⟩

/-- Claim C10: a pod whose `status.phase` is entirely absent is not
classified as a problem by `getPodProblems` (the classifier compares
against the literal phase values and never applies the `'Unknown'`
default), even though `listPods` and `getPod` render its status with the
fallback string `'Unknown'`. -/
theorem phase_absent_not_problem (now : Int) (pod : RawPod)
    (h : pod.status.bind (fun s => s.phase) = none) :
    podIsProblem pod = false
    ∧ (podSummary now pod).status = "Unknown"
    ∧ ∀ ns name events, (getPod now ns name pod events).status = "Unknown" := by
  refine ⟨?_, ?_, fun ns name events => ?_⟩
  · unfold podIsProblem
    simp [h]
  · simp [podSummary, h]
  · simp [getPod, h]

/-- Claim C10 witness: the fully-absent pod is excluded from the problem
classification while its summary status renders as `Unknown`. -/
theorem phase_absent_not_problem_witness :
    podIsProblem emptyPod = false ∧ (podSummary 0 emptyPod).status = "Unknown" :=
  ⟨(phase_absent_not_problem 0 emptyPod rfl).1,
   (phase_absent_not_problem 0 emptyPod rfl).2.1⟩

/-- Claim C3: for a creation instant `t` and evaluation time `now` with
`t ≤ now`, `age` renders days-and-hours when the elapsed time is at least
one day, hours-and-minutes when at least one hour, and minutes otherwise,
with every component floored; for an absent instant it is `"unknown"`. -/
theorem age_format (t now : Int) (h : t ≤ now) :
    (∀ n : Int, age none n = "unknown")
    ∧ (86400000 ≤ now - t →
      age (some t) now =
        toString ((now - t).toNat / 86400000) ++ "d"
        ++ toString ((now - t).toNat % 86400000 / 3600000) ++ "h")
    ∧ (3600000 ≤ now - t → now - t < 86400000 →
      age (some t) now =
        toString ((now - t).toNat / 3600000) ++ "h"
        ++ toString ((now - t).toNat % 3600000 / 60000) ++ "m")
    ∧ (now - t < 3600000 →
      age (some t) now = toString ((now - t).toNat / 60000) ++ "m") := by
  obtain ⟨e, he⟩ : ∃ e : Nat, now - t = (e : Int) := ⟨(now - t).toNat, by omega⟩
  have het : (now - t).toNat = e := by omega
  refine ⟨fun n => rfl, fun hd => ?_, fun hh hd => ?_, fun hh => ?_⟩
  · rw [he] at hd
    simp only [age, het, he, Int.toNat_natCast, fdiv_day, tmod_day, tmod_hour,
      fdiv_hour, fdiv_min, toString_natCast, gt_iff_lt, Int.natCast_pos]
    rw [if_pos (by omega : 0 < e / 86400000)]
  · rw [he] at hd hh
    simp only [age, het, he, Int.toNat_natCast, fdiv_day, tmod_day, tmod_hour,
      fdiv_hour, fdiv_min, toString_natCast, gt_iff_lt, Int.natCast_pos]
    rw [if_neg (by omega : ¬ 0 < e / 86400000),
      if_pos (by omega : 0 < e % 86400000 / 3600000)]
    have hm : e % 86400000 = e := Nat.mod_eq_of_lt (by omega)
    rw [hm]
  · rw [he] at hh
    simp only [age, het, he, Int.toNat_natCast, fdiv_day, tmod_day, tmod_hour,
      fdiv_hour, fdiv_min, toString_natCast, gt_iff_lt, Int.natCast_pos]
    rw [if_neg (by omega : ¬ 0 < e / 86400000),
      if_neg (by omega : ¬ 0 < e % 86400000 / 3600000)]
    have hm : e % 3600000 = e := Nat.mod_eq_of_lt (by omega)
    rw [hm]

/-- Claim C3 witness: one day, one hour, one minute and one second of
elapsed time renders as `"1d1h"`, and an absent instant as `"unknown"`. -/
theorem age_format_witness :
    age (some 0) 90061000 = "1d1h" ∧ age none 0 = "unknown" := by
  have h := age_format 0 90061000 (by decide)
  refine ⟨?_, h.1 0⟩
  rw [h.2.1 (by decide)]
  rfl

/-- Claim C5: `listEvents` returns the raw events sorted newest-first by
last-observed timestamp and truncated to at most the caller-supplied limit
(50 when the caller omits it), and the `events` field of `getPod` is the
10 most recent events likewise sorted; on events with last-seen instants
t1 > t3 > t2 the output order is [t1, t3, t2], and limit 2 keeps [t1, t3]. -/
theorem listEvents_sorted_truncated :
    (∀ (now : Int) (items : List RawEvent) (limit : Nat),
      ((sortStable eventDescLe items).take limit).Pairwise
        (fun a b => eventTime b ≤ eventTime a)
      ∧ listEventsCore now items limit
        = ((sortStable eventDescLe items).take limit).map (eventSummary now)
      ∧ (listEventsCore now items limit).length ≤ limit)
    ∧ (∀ (c : RawClient) (now : Int) (ns? : Option String),
      listEvents c now ns? = listEvents c now ns? 50)
    ∧ (∀ (now : Int) (ns name : String) (pod : RawPod) (events : List RawEvent),
      (getPod now ns name pod events).events
        = ((sortStable eventDescLe events).take 10).map (podEvent now)
      ∧ ((sortStable eventDescLe events).take 10).Pairwise
        (fun a b => eventTime b ≤ eventTime a)
      ∧ (getPod now ns name pod events).events.length ≤ 10)
    ∧ listEventsCore 0 [eventT1, eventT2, eventT3] 50
      = [eventSummary 0 eventT1, eventSummary 0 eventT3, eventSummary 0 eventT2]
    ∧ listEventsCore 0 [eventT1, eventT2, eventT3] 2
      = [eventSummary 0 eventT1, eventSummary 0 eventT3] := by
  refine ⟨fun now items limit => ⟨?_, rfl, ?_⟩, fun c now ns? => rfl,
    fun now ns name pod events => ⟨rfl, ?_, ?_⟩, ?_, ?_⟩
  · exact List.Pairwise.sublist (List.take_sublist limit _)
      (sortStable_events_sorted items)
  · simp only [listEventsCore, List.length_map]
    exact List.length_take_le limit _
  · exact List.Pairwise.sublist (List.take_sublist 10 _)
      (sortStable_events_sorted events)
  · simp only [getPod, List.length_map]
    exact List.length_take_le 10 _
  · rfl
  · rfl

end K8s
